import Mathlib

/-!
Verification of the survey-analysis pipeline in app.py.

The program loads a survey table, validates that 20 required item columns
(two blocks of 10: X_COLS and Y_COLS) are present, coerces item cells to
numbers (unparsable cells become missing), drops respondents with fewer
than 18 of the 20 items present, appends four composite columns
(X_total, Y_total, X_mean, Y_mean), computes a Cronbach alpha per block,
runs a Shapiro-Wilk normality test on each composite total, selects
Pearson or Spearman correlation from the two normality p-values, and
classifies the correlation p-value at the 0.05 threshold.  The cleaned
table with the four composite columns is offered as a CSV download.

Numbers are modelled as exact rationals.  The shallow embedding below
follows app.py line by line; pandas reducers (sum, mean, var) are
translated with their skip-missing semantics, and the NaN value that
pandas produces for an undefined variance is modelled as Option.none.
-/

/-- A table cell as it stands after parsing: a numeric value, an
unparsable textual value, or an empty cell.  pd.to_numeric with
errors set to coerce maps the first to itself and the other two to
missing (NaN). -/
inductive Cell where
  | num (q : ℚ)
  | str (s : String)
  | blank
deriving DecidableEq

/-- The uploaded table: a header row of column names and the data rows,
each row aligned positionally with the header. -/
structure Table where
  header : List String
  rows : List (List Cell)

/-- Numeric coercion of one cell, modelling pd.to_numeric(df[c],
errors coerce): numeric cells keep their value, anything else becomes
missing. -/
def toNumeric : Cell → Option ℚ
  | Cell.num q => some q
  | Cell.str _ => none
  | Cell.blank => none

/-- The 10 item columns of variable X (AI-tools usage), verbatim from
app.py. -/
def X_COLS : List String := [
  "Saya menggunakan AI tools untuk membantu memahami materi kuliah.",
  "AI tools membantu saya menyelesaikan tugas lebih cepat.",
  "AI tools membuat saya lebih mudah menemukan penjelasan konsep.",
  "Saya menggunakan AI tools secara rutin saat belajar mandiri.",
  "AI tools membantu saya merangkum materi kuliah.",
  "Saya menggunakan AI tools untuk mendapatkan ide saat mengerjakan tugas.",
  "AI tools membuat proses belajar saya terasa lebih efisien.",
  "Saya merasa lebih percaya diri belajar dengan bantuan AI tools.",
  "AI tools membantu saya memperbaiki kesalahan dalam tugas atau laporan.",
  "Saya merasa kualitas hasil belajar saya meningkat dengan bantuan AI Tools."
]

/-- The 10 item columns of variable Y (learning effectiveness), verbatim
from app.py. -/
def Y_COLS : List String := [
  "Saya mampu memahami materi kuliah dengan baik.",
  "Saya dapat menyelesaikan tugas tepat waktu.",
  "Saya mampu fokus saat belajar.",
  "Metode belajar saya terasa semakin efektif.",
  "Produktivitas belajar saya meningkat.",
  "Saya dapat meninjau materi dengan lebih terstruktur.",
  "Saya mampu mengatur waktu belajar dengan baik.",
  "Saya mampu mengingat materi pembelajaran dengan lebih baik.",
  "Saya dapat menyelesaikan lebih banyak materi dalam waktu yang sama.",
  "Saya merasa hasil belajar saya meningkat secara keseluruhan."
]

/-- Removal of leading and trailing whitespace from a column name,
modelling the str.strip normalisation of df.columns in app.py
(whitespace here is the ASCII space, tab, carriage return and line
feed recognised by Char.isWhitespace). -/
def strip (s : String) : String :=
  String.mk (((s.data.dropWhile Char.isWhitespace).reverse.dropWhile
    Char.isWhitespace).reverse)

/-- The header after the in-place df.columns.str.strip() normalisation. -/
def strippedHeader (t : Table) : List String := t.header.map strip

/-- Required X columns absent from the (stripped) header, in X_COLS
order, modelling the list comprehension at app.py line 80. -/
def missing_x (t : Table) : List String :=
  X_COLS.filter fun c => decide (¬ c ∈ strippedHeader t)

/-- Required Y columns absent from the (stripped) header, in Y_COLS
order, modelling the list comprehension at app.py line 81. -/
def missing_y (t : Table) : List String :=
  Y_COLS.filter fun c => decide (¬ c ∈ strippedHeader t)

/-- The 20 coerced item values of one respondent, in X_COLS ++ Y_COLS
order, modelling the column selection df[X_COLS + Y_COLS] after the
to_numeric coercion.  A column name is resolved to its position in the
stripped header. -/
def itemsRow (t : Table) (row : List Cell) : List (Option ℚ) :=
  (X_COLS ++ Y_COLS).map fun c =>
    toNumeric (row.getD ((strippedHeader t).indexOf c) Cell.blank)

/-- The item-only data frame items_df of app.py line 99: every
respondent reduced to the 20 coerced item values. -/
def items_df (t : Table) : List (List (Option ℚ)) := t.rows.map (itemsRow t)

/-- Number of present (non-missing) values in a list of optional
values; notna().sum() in pandas terms. -/
def presentCount (xs : List (Option ℚ)) : ℕ := (xs.filterMap id).length

/-- The valid_count of a respondent, app.py line 102: the number of
non-missing values among the 20 item columns. -/
def valid_count (r : List (Option ℚ)) : ℕ := presentCount r

/-- The listwise filter of app.py line 103: retain the respondents with
at least 18 of the 20 items present. -/
def df_clean (t : Table) : List (List (Option ℚ)) :=
  (items_df t).filter fun r => decide (18 ≤ valid_count r)

/-- The X-block of a 20-item respondent row: the first 10 entries
(df_clean[X_COLS]). -/
def xItems (r : List (Option ℚ)) : List (Option ℚ) := r.take 10

/-- The Y-block of a 20-item respondent row: the last 10 entries
(df_clean[Y_COLS]). -/
def yItems (r : List (Option ℚ)) : List (Option ℚ) := r.drop 10

/-- Row-wise pandas sum with default skipna: the sum of the present
values (an empty block sums to 0). -/
def blockSum (xs : List (Option ℚ)) : ℚ := (xs.filterMap id).sum

/-- Row-wise pandas mean with default skipna: the mean of the present
values, NaN (none) when no value is present. -/
def blockMean (xs : List (Option ℚ)) : Option ℚ :=
  if (xs.filterMap id).length = 0 then none
  else some ((xs.filterMap id).sum / ((xs.filterMap id).length : ℚ))

/-- The composite X_total of app.py line 115: sum of the X items. -/
def X_total (r : List (Option ℚ)) : ℚ := blockSum (xItems r)

/-- The composite Y_total of app.py line 116: sum of the Y items. -/
def Y_total (r : List (Option ℚ)) : ℚ := blockSum (yItems r)

/-- The composite X_mean of app.py line 117: mean of the present X
items. -/
def X_mean (r : List (Option ℚ)) : Option ℚ := blockMean (xItems r)

/-- The composite Y_mean of app.py line 118: mean of the present Y
items. -/
def Y_mean (r : List (Option ℚ)) : Option ℚ := blockMean (yItems r)

/-- Correlation method selection, app.py lines 163 to 166: Pearson
exactly when both Shapiro-Wilk p-values strictly exceed 0.05, Spearman
otherwise. -/
def selectMethod (px py : ℚ) : String :=
  if (0.05 : ℚ) < px ∧ (0.05 : ℚ) < py then "pearson" else "spearman"

/-- Significance classification of the correlation p-value, app.py
line 183: significant exactly when p is strictly below 0.05. -/
def significant (p : ℚ) : Bool := decide (p < (0.05 : ℚ))

/-- A table whose header is exactly the 20 required item columns and
whose two data rows answer 18 and 17 of the items respectively. -/
def boundaryTable : Table :=
  { header := X_COLS ++ Y_COLS
    rows := [List.replicate 18 (Cell.num 4) ++ [Cell.blank, Cell.blank],
             List.replicate 17 (Cell.num 4) ++ [Cell.blank, Cell.blank, Cell.blank]] }

/-- The coerced item row with exactly 18 present values. -/
def row18 : List (Option ℚ) := List.replicate 18 (some 4) ++ [none, none]

/-- The coerced item row with exactly 17 present values. -/
def row17 : List (Option ℚ) := List.replicate 17 (some 4) ++ [none, none, none]

/-- A concrete retained row: nine 4s and one missing item in the X
block, ten 5s in the Y block. -/
def rowC6 : List (Option ℚ) :=
  List.replicate 9 (some 4) ++ [none] ++ List.replicate 10 (some 5)

/-- The value of one matrix cell with missing read as 0; only ever used
on rows already known complete. -/
def cellVal {k : ℕ} (r : Fin k → Option ℚ) (j : Fin k) : ℚ := (r j).getD 0

/-- The per-respondent item sum df_items.sum(axis=1) of one complete
row. -/
def rowSum {k : ℕ} (r : Fin k → Option ℚ) : ℚ := ∑ j, cellVal r j

/-- The block-local dropna of app.py line 133: only the rows with no
missing value in the block are kept. -/
def completeRows {k : ℕ} (rows : List (Fin k → Option ℚ)) :
    List (Fin k → Option ℚ) :=
  rows.filter fun r => decide (∀ j, (r j).isSome = true)

/-- The values of item column j across the given rows. -/
def colVals {k : ℕ} (rows : List (Fin k → Option ℚ)) (j : Fin k) : List ℚ :=
  rows.map fun r => cellVal r j

/-- Arithmetic mean of a list of rationals. -/
def listMean (xs : List ℚ) : ℚ := xs.sum / xs.length

/-- Sample variance with denominator n - 1 (pandas var with ddof 1);
none models the NaN that pandas returns on fewer than two
observations. -/
def sampleVar (xs : List ℚ) : Option ℚ :=
  if xs.length ≤ 1 then none
  else some ((xs.map fun x => (x - listMean xs) ^ 2).sum / ((xs.length : ℚ) - 1))

/-- The item_var.sum() of app.py line 141.  pandas Series.sum skips NaN
entries, so an undefined column variance contributes 0; all columns of
the dropna-restricted block have the same row count, hence they are
either all defined or all NaN. -/
def itemVarSum {k : ℕ} (rows : List (Fin k → Option ℚ)) : ℚ :=
  ∑ j, (sampleVar (colVals rows j)).getD 0

/-- Cronbach alpha, app.py lines 132 to 142.  The block is first
restricted to its complete rows; with k at most 1 or no row left the
result is the NaN sentinel.  total_var is the sample variance of the
per-row item sums; the code compares it with 0 (a NaN total_var is not
0, and then propagates through the formula to a NaN result, modelled by
the none branch of the match). -/
def cronbach_alpha {k : ℕ} (rows : List (Fin k → Option ℚ)) : Option ℚ :=
  if k ≤ 1 ∨ (completeRows rows).length = 0 then none
  else if sampleVar ((completeRows rows).map rowSum) = some 0 then none
  else (sampleVar ((completeRows rows).map rowSum)).map fun tv =>
    ((k : ℚ) / ((k : ℚ) - 1)) * (1 - itemVarSum (completeRows rows) / tv)

/-- A 2-item block with exactly one (complete) respondent row: the
single-row case the original claim does not cover. -/
def oneRowBlock : List (Fin 2 → Option ℚ) := [![some 1, some 2]]

/-- A 2-item block with two complete respondent rows. -/
def twoRowBlock : List (Fin 2 → Option ℚ) := [![some 1, some 2], ![some 3, some 5]]

/-- The same item columns in the other order, applied to every row:
column j of the permuted block is column (σ j) of the original. -/
def permuteCols {k : ℕ} (σ : Equiv.Perm (Fin k))
    (rows : List (Fin k → Option ℚ)) : List (Fin k → Option ℚ) :=
  rows.map fun r => fun j => r (σ j)

/-- The three ways the script stops before producing its full output:
the schema failure of app.py line 90, the empty-sample failure of line
110, and the uncaught ValueError that scipy.stats.shapiro raises on a
sample of fewer than 3 observations (app.py line 157; scipy documents
the 3-observation minimum, and the script has no handler for it, so the
run aborts). -/
inductive Halt where
  | schemaError (mx my : List String)
  | emptySample
  | shapiroValueError
deriving DecidableEq

/-- The X block of a cleaned 20-item row as a 10-column matrix row, for
the Cronbach computation on df_clean[X_COLS]. -/
def xBlockFin (r : List (Option ℚ)) : Fin 10 → Option ℚ := fun j => r.getD j.val none

/-- The Y block of a cleaned 20-item row as a 10-column matrix row, for
the Cronbach computation on df_clean[Y_COLS]. -/
def yBlockFin (r : List (Option ℚ)) : Fin 10 → Option ℚ := fun j => r.getD (10 + j.val) none

/-- The data the script has computed by the time it reaches the shapiro
calls: the cleaned rows, the two reliability coefficients and the two
composite-total series (the series handed to shapiro and to the
correlation). -/
structure CoreResult where
  cleanRows : List (List (Option ℚ))
  alpha_x : Option ℚ
  alpha_y : Option ℚ
  x_totals : List ℚ
  y_totals : List ℚ
deriving DecidableEq

/-- The statistical pipeline of app.py in source order: schema check
(lines 80 to 90), coercion and listwise filter (lines 95 to 104), the
empty-sample stop (lines 108 to 110), composite scoring and Cronbach
alpha (lines 115 to 147), then the shapiro calls (lines 157 to 158),
which abort the run when fewer than 3 respondents were retained.  The
correlation itself consumes the shapiro p-values, which are external
numerical output; selectMethod and significant model that stage as
functions of those p-values. -/
def pipelineCore (t : Table) : Except Halt CoreResult :=
  if missing_x t ≠ [] ∨ missing_y t ≠ [] then
    Except.error (Halt.schemaError (missing_x t) (missing_y t))
  else if (df_clean t).length = 0 then Except.error Halt.emptySample
  else if (df_clean t).length < 3 then Except.error Halt.shapiroValueError
  else Except.ok
    { cleanRows := df_clean t
      alpha_x := cronbach_alpha ((df_clean t).map xBlockFin)
      alpha_y := cronbach_alpha ((df_clean t).map yBlockFin)
      x_totals := (df_clean t).map X_total
      y_totals := (df_clean t).map Y_total }

/-- The header of the downloadable table: df_clean holds the 20 item
columns and then the four appended composite columns. -/
def compositeNames : List String := ["X_total", "Y_total", "X_mean", "Y_mean"]

/-- One exported row: the 20 coerced item values of the retained
respondent followed by the four composite values (the totals always
exist; the means are missing only when a whole block is missing). -/
def scoredRow (r : List (Option ℚ)) : List (Option ℚ) :=
  r ++ [some (X_total r), some (Y_total r), X_mean r, Y_mean r]

/-- The column names of the exported table, in df_clean column order. -/
def exportHeader : List String := X_COLS ++ Y_COLS ++ compositeNames

/-- The data rows of the exported table: every retained respondent with
the composites appended, in retained order. -/
def exportRows (t : Table) : List (List (Option ℚ)) := (df_clean t).map scoredRow

/-- One serialized cell: pandas to_csv writes an empty field for a
missing value; the decimal float rendering of a number is presentation
detail, modelled by the canonical rational rendering. -/
def renderCell : Option ℚ → String
  | none => ""
  | some q => toString q

/-- One comma-separated line of the exported file. -/
def csvLine (cells : List String) : String := String.intercalate "," cells

/-- The csv_bytes download of app.py line 228: header line then data
lines, newline-terminated (df_clean.to_csv with index False). -/
def to_csv (t : Table) : String :=
  String.intercalate "\n"
    (csvLine exportHeader :: (exportRows t).map fun r => csvLine (r.map renderCell))
  ++ "\n"

/-- A table with an empty header: all 20 required columns are absent. -/
def emptyHeaderTable : Table := { header := [], rows := [] }

/-- A complete upload with exactly two respondents, both answering all
20 items: it passes the schema check and the listwise filter keeps both
rows. -/
def twoRespondentTable : Table :=
  { header := X_COLS ++ Y_COLS
    rows := [List.replicate 20 (Cell.num 4), List.replicate 20 (Cell.num 5)] }

/-- A table whose header carries an extra non-item column before the 20
required ones, with one fully answered respondent. -/
def timestampTable : Table :=
  { header := "Timestamp" :: (X_COLS ++ Y_COLS)
    rows := [Cell.str "x" :: List.replicate 20 (Cell.num 4)] }

/-- Claim C3: the parametric (Pearson) branch is selected if and only
if both normality p-values strictly exceed 0.05; any other pair,
including a p-value exactly equal to 0.05, selects the rank-based
(Spearman) branch. -/
theorem selectMethod_spec (px py : ℚ) :
    (selectMethod px py = "pearson" ↔ (0.05 : ℚ) < px ∧ (0.05 : ℚ) < py)
    ∧ (selectMethod px py = "spearman" ↔ ¬ ((0.05 : ℚ) < px ∧ (0.05 : ℚ) < py))
    ∧ selectMethod (0.05 : ℚ) py = "spearman"
    ∧ selectMethod px (0.05 : ℚ) = "spearman" := by
  refine ⟨?_, ?_, ?_, ?_⟩
  · unfold selectMethod
    split_ifs with h
    · simp [h]
    · simp [h]
  · unfold selectMethod
    split_ifs with h
    · simp [h]
    · simp [h]
  · unfold selectMethod
    rw [if_neg]
    rintro ⟨h1, -⟩
    exact lt_irrefl _ h1
  · unfold selectMethod
    rw [if_neg]
    rintro ⟨-, h2⟩
    exact lt_irrefl _ h2

/-- Claim C9: a correlation p-value is classified as a significant
relationship if and only if p is strictly below 0.05; in particular
0.049 is significant and 0.05 is not. -/
theorem significant_spec (p : ℚ) :
    (significant p = true ↔ p < (0.05 : ℚ))
    ∧ significant (49 / 1000 : ℚ) = true
    ∧ significant (0.05 : ℚ) = false := by
  refine ⟨by simp [significant], ?_, ?_⟩
  · simp only [significant, decide_eq_true_eq]
    norm_num
  · simp only [significant, decide_eq_false_iff_not]
    norm_num

/-- Claim C4: membership in df_clean is exactly membership in items_df
together with at least 18 of the 20 item values present; a respondent
with exactly 18 present items is retained, one with exactly 17 is
excluded. -/
theorem df_clean_mem (t : Table) (r : List (Option ℚ)) :
    (r ∈ df_clean t ↔ r ∈ items_df t ∧ 18 ≤ valid_count r)
    ∧ (r ∈ items_df t → valid_count r = 18 → r ∈ df_clean t)
    ∧ (valid_count r = 17 → ¬ r ∈ df_clean t) := by
  have hmem : r ∈ df_clean t ↔ r ∈ items_df t ∧ 18 ≤ valid_count r := by
    unfold df_clean
    rw [List.mem_filter]
    simp
  refine ⟨hmem, ?_, ?_⟩
  · intro h1 h2
    exact hmem.mpr ⟨h1, by omega⟩
  · intro h17 hin
    have := (hmem.mp hin).2
    omega

/-- Witness for claim C4 at the boundary: the 18-of-20 row is retained
and the 17-of-20 row is excluded. -/
theorem df_clean_mem_witness :
    row18 ∈ df_clean boundaryTable ∧ ¬ row17 ∈ df_clean boundaryTable :=
  ⟨(df_clean_mem boundaryTable row18).2.1 (by decide) (by decide),
   (df_clean_mem boundaryTable row17).2.2 (by decide)⟩

/-- Claim C6: the composite totals are the sums of the present item
values of the respective block, the composite means are the means over
present values only, a missing item changes neither the sum nor the
mean reduction (it is skipped, not read as zero), and a respondent
whose block is fully present gets exactly the arithmetic sum of its 10
values. -/
theorem composite_reducer (r : List (Option ℚ)) :
    X_total r = ((xItems r).filterMap id).sum
    ∧ Y_total r = ((yItems r).filterMap id).sum
    ∧ (presentCount (xItems r) ≠ 0 →
        X_mean r = some (((xItems r).filterMap id).sum / (presentCount (xItems r) : ℚ)))
    ∧ (presentCount (yItems r) ≠ 0 →
        Y_mean r = some (((yItems r).filterMap id).sum / (presentCount (yItems r) : ℚ)))
    ∧ (∀ vs : List ℚ, ∀ rest : List (Option ℚ), vs.length = 10 →
        X_total (vs.map some ++ rest) = vs.sum)
    ∧ (∀ l1 l2 : List (Option ℚ),
        blockSum (l1 ++ none :: l2) = blockSum (l1 ++ l2)
        ∧ blockMean (l1 ++ none :: l2) = blockMean (l1 ++ l2)) := by
  refine ⟨rfl, rfl, ?_, ?_, ?_, ?_⟩
  · intro h
    unfold presentCount at h
    unfold X_mean blockMean presentCount
    rw [if_neg h]
  · intro h
    unfold presentCount at h
    unfold Y_mean blockMean presentCount
    rw [if_neg h]
  · intro vs rest h
    unfold X_total blockSum xItems
    have htake : (vs.map some ++ rest).take 10 = vs.map some := by
      have : (vs.map some).length = 10 := by simp [h]
      rw [← this, List.take_left]
    rw [htake]
    simp
  · intro l1 l2
    constructor
    · unfold blockSum
      simp [List.filterMap_append]
    · unfold blockMean
      simp [List.filterMap_append]

/-- Witness for claim C6: on rowC6 the X mean averages the nine present
values, and a fully present X block of ten 4s sums to 40. -/
theorem composite_reducer_witness :
    X_mean rowC6 = some 4
    ∧ X_total ((List.replicate 10 ((4 : ℚ))).map some ++ List.replicate 10 (some 5))
        = (List.replicate 10 ((4 : ℚ))).sum := by
  constructor
  · have h := (composite_reducer rowC6).2.2.1 (by decide)
    rw [h]
    have hx : (xItems rowC6).filterMap id = List.replicate 9 ((4 : ℚ)) := by decide
    have hp : presentCount (xItems rowC6) = 9 := by decide
    rw [hx, hp]
    norm_num [List.sum_replicate]
  · exact (composite_reducer rowC6).2.2.2.2.1 (List.replicate 10 ((4 : ℚ)))
      (List.replicate 10 (some 5)) (by decide)

/-- Claim C10: a 20-item row passing the listwise filter has at least 8
present values in each block, so both means are defined and all four
composite entries of a retained respondent are non-missing. -/
theorem retained_row_composites (r : List (Option ℚ)) (hlen : r.length = 20)
    (hvc : 18 ≤ valid_count r) :
    8 ≤ presentCount (xItems r) ∧ 8 ≤ presentCount (yItems r)
    ∧ (X_mean r).isSome = true ∧ (Y_mean r).isSome = true := by
  have hsplit : presentCount (xItems r) + presentCount (yItems r) = valid_count r := by
    unfold presentCount xItems yItems valid_count presentCount
    rw [← List.length_append, ← List.filterMap_append, List.take_append_drop]
  have hx10 : (xItems r).length ≤ 10 := by
    unfold xItems
    simp [List.length_take]
  have hy10 : (yItems r).length ≤ 10 := by
    unfold yItems
    simp [List.length_drop, hlen]
  have hxle : presentCount (xItems r) ≤ 10 :=
    le_trans (List.length_filterMap_le _ _) hx10
  have hyle : presentCount (yItems r) ≤ 10 :=
    le_trans (List.length_filterMap_le _ _) hy10
  have hx : 8 ≤ presentCount (xItems r) := by omega
  have hy : 8 ≤ presentCount (yItems r) := by omega
  refine ⟨hx, hy, ?_, ?_⟩
  · unfold X_mean blockMean
    rw [if_neg (by unfold presentCount at hx; omega)]
    rfl
  · unfold Y_mean blockMean
    rw [if_neg (by unfold presentCount at hy; omega)]
    rfl

/-- Witness for claim C10 on the concrete retained row rowC6 (19 of 20
items present). -/
theorem retained_row_composites_witness :
    8 ≤ presentCount (xItems rowC6) ∧ 8 ≤ presentCount (yItems rowC6)
    ∧ (X_mean rowC6).isSome = true ∧ (Y_mean rowC6).isSome = true :=
  retained_row_composites rowC6 (by decide) (by decide)

/-- The variance of a list is NaN exactly on fewer than two
observations. -/
theorem sampleVar_eq_none (xs : List ℚ) : sampleVar xs = none ↔ xs.length ≤ 1 := by
  unfold sampleVar
  split_ifs with h
  · simp [h]
  · simp [h]

/-- Claim C7 (amended): cronbach_alpha returns the undefined sentinel
exactly when k is at most 1, at most one complete row remains, or the
variance of the per-respondent item sums is zero; with at least two
complete rows, k at least 2 and a nonzero total variance it returns the
standard formula. -/
theorem cronbach_alpha_cases {k : ℕ} (rows : List (Fin k → Option ℚ)) :
    (cronbach_alpha rows = none ↔
      k ≤ 1 ∨ (completeRows rows).length ≤ 1
        ∨ sampleVar ((completeRows rows).map rowSum) = some 0)
    ∧ (∀ tv : ℚ, sampleVar ((completeRows rows).map rowSum) = some tv → tv ≠ 0 →
        2 ≤ k →
        cronbach_alpha rows
          = some (((k : ℚ) / ((k : ℚ) - 1))
              * (1 - itemVarSum (completeRows rows) / tv))) := by
  constructor
  · unfold cronbach_alpha
    split_ifs with h1 h2
    · simp only [true_iff]
      rcases h1 with h | h
      · exact Or.inl h
      · exact Or.inr (Or.inl (by omega))
    · simp only [true_iff]
      exact Or.inr (Or.inr h2)
    · push_neg at h1
      rcases hsv : sampleVar ((completeRows rows).map rowSum) with _ | tv
      · have hle : ((completeRows rows).map rowSum).length ≤ 1 :=
          (sampleVar_eq_none _).mp hsv
        rw [List.length_map] at hle
        constructor
        · intro _
          exact Or.inr (Or.inl hle)
        · intro _
          rfl
      · have hlen : ¬ ((completeRows rows).map rowSum).length ≤ 1 := by
          intro hle
          rw [(sampleVar_eq_none _).mpr hle] at hsv
          exact Option.noConfusion hsv
        rw [List.length_map] at hlen
        constructor
        · intro habs
          exact Option.noConfusion habs
        · intro habs
          rcases habs with h | h | h
          · omega
          · exact absurd h hlen
          · rw [hsv] at h2
            exact absurd h h2
  · intro tv hsv htv hk
    unfold cronbach_alpha
    have hlen : ¬ ((completeRows rows).map rowSum).length ≤ 1 := by
      intro hle
      rw [(sampleVar_eq_none _).mpr hle] at hsv
      exact Option.noConfusion hsv
    rw [List.length_map] at hlen
    rw [if_neg (by omega), if_neg (by rw [hsv]; simp [htv]), hsv]
    rfl

/-- Counterexample to claim C7 as stated: on a 2-item block with one
complete respondent the code returns the NaN sentinel, yet none of the
conditions the claim lists holds (k is 2, a complete row remains, and
the total variance is NaN, not zero). -/
theorem cronbach_alpha_one_row :
    cronbach_alpha oneRowBlock = none
    ∧ ¬ ((2 : ℕ) ≤ 1 ∨ (completeRows oneRowBlock).length = 0
          ∨ sampleVar ((completeRows oneRowBlock).map rowSum) = some 0) := by
  have hc : completeRows oneRowBlock = oneRowBlock := by
    simp [completeRows, oneRowBlock, Fin.forall_fin_two]
  constructor
  · rw [cronbach_alpha, hc]
    norm_num [oneRowBlock, sampleVar]
  · rw [hc]
    push_neg
    refine ⟨by omega, by simp [oneRowBlock], ?_⟩
    rw [(sampleVar_eq_none _).mpr (by simp [oneRowBlock])]
    intro habs
    exact Option.noConfusion habs

/-- Witness for claim C7 on twoRowBlock: the total variance is 25/2, so
the formula branch applies and alpha evaluates to 24/25. -/
theorem cronbach_alpha_cases_witness : cronbach_alpha twoRowBlock = some (24 / 25) := by
  have hc : completeRows twoRowBlock = twoRowBlock := by
    simp [completeRows, twoRowBlock, Fin.forall_fin_two]
  have hsv : sampleVar ((completeRows twoRowBlock).map rowSum) = some (25 / 2) := by
    rw [hc]
    norm_num [twoRowBlock, sampleVar, listMean, rowSum, Fin.sum_univ_two, cellVal]
  have h := (cronbach_alpha_cases twoRowBlock).2 (25 / 2) hsv (by norm_num) (by omega)
  rw [h, hc]
  norm_num [twoRowBlock, itemVarSum, Fin.sum_univ_two, colVals, sampleVar, listMean,
    cellVal]

/-- Completeness of a row is invariant under a column permutation. -/
theorem completeRows_permuteCols {k : ℕ} (σ : Equiv.Perm (Fin k))
    (rows : List (Fin k → Option ℚ)) :
    completeRows (permuteCols σ rows) = permuteCols σ (completeRows rows) := by
  unfold completeRows permuteCols
  rw [List.filter_map, List.filter_congr]
  intro r _
  simp only [Function.comp_apply]
  rw [decide_eq_decide]
  constructor
  · intro h j
    have := h (σ.symm j)
    rwa [Equiv.apply_symm_apply] at this
  · intro h j
    exact h (σ j)

/-- The per-row item sum is invariant under a column permutation. -/
theorem rowSum_permute {k : ℕ} (σ : Equiv.Perm (Fin k)) (r : Fin k → Option ℚ) :
    rowSum (fun j => r (σ j)) = rowSum r := by
  unfold rowSum
  exact Equiv.sum_comp σ fun j => cellVal r j

/-- The multiset of column variances is permuted along, so their sum is
invariant. -/
theorem itemVarSum_permuteCols {k : ℕ} (σ : Equiv.Perm (Fin k))
    (rows : List (Fin k → Option ℚ)) :
    itemVarSum (permuteCols σ rows) = itemVarSum rows := by
  unfold itemVarSum
  have hcol : ∀ j, colVals (permuteCols σ rows) j = colVals rows (σ j) := by
    intro j
    unfold colVals permuteCols cellVal
    rw [List.map_map]
    rfl
  calc ∑ j, (sampleVar (colVals (permuteCols σ rows) j)).getD 0
      = ∑ j, (sampleVar (colVals rows (σ j))).getD 0 := by
        refine Finset.sum_congr rfl fun j _ => ?_
        rw [hcol]
    _ = ∑ j, (sampleVar (colVals rows j)).getD 0 :=
        Equiv.sum_comp σ fun j => (sampleVar (colVals rows j)).getD 0

/-- Claim C8: the reliability coefficient is invariant under any
permutation of the item columns, undefined sentinel cases included. -/
theorem cronbach_alpha_perm_invariant {k : ℕ} (σ : Equiv.Perm (Fin k))
    (rows : List (Fin k → Option ℚ)) :
    cronbach_alpha (permuteCols σ rows) = cronbach_alpha rows := by
  unfold cronbach_alpha
  rw [completeRows_permuteCols]
  have hlen : (permuteCols σ (completeRows rows)).length = (completeRows rows).length := by
    unfold permuteCols
    rw [List.length_map]
  have hsums : (permuteCols σ (completeRows rows)).map rowSum
      = (completeRows rows).map rowSum := by
    unfold permuteCols
    rw [List.map_map]
    refine List.map_congr_left fun r _ => ?_
    exact rowSum_permute σ r
  rw [hlen, hsums, itemVarSum_permuteCols]

/-- Claim C5: when any required item column is missing from the
whitespace-trimmed header, the pipeline stops with the schema error
carrying exactly the missing names of each key set, before any
coercion, filtering or statistics. -/
theorem schema_halt (t : Table) (h : missing_x t ≠ [] ∨ missing_y t ≠ []) :
    pipelineCore t = Except.error (Halt.schemaError (missing_x t) (missing_y t))
    ∧ (∀ c, c ∈ missing_x t ↔ c ∈ X_COLS ∧ ¬ c ∈ strippedHeader t)
    ∧ (∀ c, c ∈ missing_y t ↔ c ∈ Y_COLS ∧ ¬ c ∈ strippedHeader t) := by
  refine ⟨?_, ?_, ?_⟩
  · unfold pipelineCore
    rw [if_pos h]
  · intro c
    unfold missing_x
    rw [List.mem_filter]
    simp
  · intro c
    unfold missing_y
    rw [List.mem_filter]
    simp

/-- Witness for claim C5: on a header with no columns the pipeline
stops with the schema error listing both full key sets. -/
theorem schema_halt_witness :
    pipelineCore emptyHeaderTable = Except.error (Halt.schemaError X_COLS Y_COLS) := by
  have h := (schema_halt emptyHeaderTable (by decide)).1
  have hx : missing_x emptyHeaderTable = X_COLS := by decide
  have hy : missing_y emptyHeaderTable = Y_COLS := by decide
  rw [hx, hy] at h
  exact h

/-- Claim C1 (code behaviour at the failing input): with 2 retained
respondents the script reaches shapiro(df_clean[X_total]) with a sample
of size 2 and aborts on the ValueError; nothing reports a distinct
not-computable condition and no Spearman fallback is reached. -/
theorem shapiro_halts_below_three :
    pipelineCore twoRespondentTable = Except.error Halt.shapiroValueError
    ∧ (df_clean twoRespondentTable).length = 2 :=
  ⟨rfl, by decide⟩

/-- Counterexample to claim C2 as stated: the input has a non-item
column Timestamp and one retained respondent, yet the exported header
does not contain Timestamp — non-item columns are dropped by the
items_df selection, not passed through to the download. -/
theorem export_drops_timestamp :
    "Timestamp" ∈ timestampTable.header
    ∧ (df_clean timestampTable).length = 1
    ∧ ¬ "Timestamp" ∈ exportHeader := by decide

/-- Claim C2 (amended): the exported table consists of exactly the 20
coerced item columns of the retained rows plus the four appended
composite columns, in order; every exported row is its retained row
with the four composite values appended, and has 24 entries. -/
theorem export_contents (t : Table) :
    exportHeader = X_COLS ++ Y_COLS ++ compositeNames
    ∧ (exportRows t).length = (df_clean t).length
    ∧ (∀ i : ℕ, (exportRows t)[i]? = ((df_clean t)[i]?).map scoredRow)
    ∧ (∀ r, r ∈ exportRows t → r.length = 24) := by
  refine ⟨rfl, ?_, ?_, ?_⟩
  · unfold exportRows
    rw [List.length_map]
  · intro i
    unfold exportRows
    rw [List.getElem?_map]
  · intro r hr
    unfold exportRows at hr
    rcases List.mem_map.mp hr with ⟨r0, hr0, rfl⟩
    have h20 : r0.length = 20 := by
      have hmem : r0 ∈ items_df t := (List.mem_filter.mp hr0).1
      rcases List.mem_map.mp hmem with ⟨row, _, rfl⟩
      unfold itemsRow
      rw [List.length_map]
      decide
    unfold scoredRow
    rw [List.length_append, h20]
    rfl
